import Mathlib

/-!
Shallow embedding of the shutdown-guard library (Rust).

Embedded components:
- the callback registry `ShutdownGuard` from `src/lib.rs` (register,
  callback_count, clear, execute_callbacks);
- the POSIX signal handlers `handle_shutdown_signal` from
  `src/platform/linux.rs` (non-dbus build) and `src/platform/macos.rs`,
  together with the process-wide `GLOBAL_CALLBACKS` slot and the
  `SIGNAL_RECEIVED` atomic flag;
- the D-Bus monitor loop `monitor_systemd_signals` / `is_shutdown_signal`
  and the dbus-build `start_monitoring` from `src/platform/linux.rs`;
- the message-window procedure `window_proc` from `src/platform/windows.rs`.

A callback body is opaque to the engine; we abstract it to the label it
appends to an observation log plus a flag saying whether invoking it panics.
Rust panic propagation is modelled explicitly: a panic unwinds out of the
plain `for` loop that drives every execution site, so the remaining callbacks
of that iteration do not run.  Concurrency on the signal path is modelled by
sequentialising signal deliveries: the guard is a single atomic `swap`, so
any interleaving of deliveries is equivalent to some sequence of handler
invocations, each seeing the flag value left by the previous one.
-/

namespace ShutdownGuardRs

/-- A registered callback, abstracted to its observable behaviour: invoking
it appends `label` to the observation log; `fails` marks a callback whose
body panics when invoked (before completing its logged effect). -/
structure Callback where
  label : Nat
  fails : Bool
deriving DecidableEq

/-- The loop `for callback in callbacks_lock.iter() { callback(); }` shared
by every execution site in the source.  Returns the labels invoked in order
and `true` iff every callback returned normally; a panicking callback
unwinds out of the loop, so iteration stops at the first failing callback. -/
def runCallbacks : List Callback → List Nat × Bool
  | [] => ([], true)
  | c :: rest =>
    if c.fails then ([], false)
    else
      let r := runCallbacks rest
      (c.label :: r.1, r.2)

/-- `src/lib.rs` `ShutdownGuard`: the registry is a `Vec<ShutdownCallback>`
behind `Arc<RwLock<..>>`; we model the locked contents directly. -/
structure ShutdownGuard where
  callbacks : List Callback
deriving DecidableEq

/-- `ShutdownGuard::new`: starts with an empty vector. -/
def ShutdownGuard.new : ShutdownGuard := ⟨[]⟩

/-- `ShutdownGuard::register`: `self.callbacks.write().push(callback)` —
appends at the end, always succeeds. -/
def ShutdownGuard.register (g : ShutdownGuard) (c : Callback) : ShutdownGuard :=
  ⟨g.callbacks ++ [c]⟩

/-- `ShutdownGuard::callback_count`: `self.callbacks.read().len()`.  The
method takes `&self` and only takes the read lock, so the post-state equals
the pre-state; we return it explicitly to state the frame property. -/
def ShutdownGuard.callback_count (g : ShutdownGuard) : ShutdownGuard × Nat :=
  (g, g.callbacks.length)

/-- `ShutdownGuard::clear`: `self.callbacks.write().clear()`. -/
def ShutdownGuard.clear (_g : ShutdownGuard) : ShutdownGuard :=
  ⟨[]⟩

/-- `ShutdownGuard::execute_callbacks`: takes the read lock and runs the
iteration loop.  Returns the post-state (the method only reads), the labels
invoked in order, and whether the call completed without a panic. -/
def ShutdownGuard.execute_callbacks (g : ShutdownGuard) :
    ShutdownGuard × List Nat × Bool :=
  (g, runCallbacks g.callbacks)

/-- An operation the application can perform on the registry between
creations and executions; used to state the counting property over arbitrary
call sequences. -/
inductive RegOp where
  | register (c : Callback)
  | clear
deriving DecidableEq

/-- Apply one registry operation. -/
def applyOp (g : ShutdownGuard) : RegOp → ShutdownGuard
  | RegOp.register c => g.register c
  | RegOp.clear => g.clear

/-- Apply a sequence of registry operations, left to right. -/
def applyOps (g : ShutdownGuard) : List RegOp → ShutdownGuard
  | [] => g
  | op :: ops => applyOps (applyOp g op) ops

/-- Counting helper: the number of register calls since the most recent
clear, starting from `n` already-registered callbacks. -/
def countFrom (n : Nat) : List RegOp → Nat
  | [] => n
  | RegOp.register _ :: ops => countFrom (n + 1) ops
  | RegOp.clear :: ops => countFrom 0 ops

/-- Rendering of the spec sentence "the number of `register` calls made
since the most recent `clear()` (or since creation if `clear` was never
called)", written from the spec's words for comparison with the code model. -/
def spec_registers_since_last_clear (ops : List RegOp) : Nat :=
  countFrom 0 ops

/-! ### POSIX signal path (`src/platform/linux.rs` non-dbus build and
`src/platform/macos.rs`) -/

/-- Process-wide state read and written by the POSIX signal path: the
`GLOBAL_CALLBACKS` slot (set by `start_monitoring` before handlers are
installed), the `SIGNAL_RECEIVED` atomic flag, and the process outcome
(`exited = some code` after `libc::_exit(code)`; `aborted` when a panic
crossed the `extern "C"` boundary, which aborts the process). -/
structure SignalState where
  global_callbacks : Option (List Callback)
  signal_received : Bool
  exited : Option Nat
  aborted : Bool
deriving DecidableEq

/-- Observable actions a signal handler performs, in order. -/
inductive HandlerAction where
  | write (msg : String)
  | invoke (label : Nat)
  | sync
  | usleep (usec : Nat)
  | exitProc (code : Nat)
deriving DecidableEq

/-- `handle_shutdown_signal` from `src/platform/linux.rs` (non-dbus build).
`tryReadOk` models whether `callbacks.try_read()` succeeds — it fails iff
the interrupted thread held the write lock.  Source shape: the
`SIGNAL_RECEIVED.swap(true)` guard returns early on redelivery; otherwise,
if `GLOBAL_CALLBACKS` is set, a non-blocking read attempt runs the loop
(skipped entirely if the attempt fails), then `libc::sync()` and
`libc::usleep(100_000)` run, and finally `libc::_exit(0)` runs
unconditionally. -/
def linux_handle_shutdown_signal (s : SignalState) (tryReadOk : Bool) :
    SignalState × List HandlerAction :=
  if s.signal_received then (s, [])
  else
    let s1 : SignalState := { s with signal_received := true }
    match s1.global_callbacks with
    | none => ({ s1 with exited := some 0 }, [HandlerAction.exitProc 0])
    | some cbs =>
      if tryReadOk then
        let r := runCallbacks cbs
        if r.2 then
          ({ s1 with exited := some 0 },
            r.1.map HandlerAction.invoke ++
              [HandlerAction.sync, HandlerAction.usleep 100000,
                HandlerAction.exitProc 0])
        else
          ({ s1 with aborted := true }, r.1.map HandlerAction.invoke)
      else
        ({ s1 with exited := some 0 },
          [HandlerAction.sync, HandlerAction.usleep 100000,
            HandlerAction.exitProc 0])

/-- Signal numbers used by the source (`libc` values on Linux and macOS). -/
def SIGHUP : Nat := 1

/-- `libc::SIGINT`. -/
def SIGINT : Nat := 2

/-- `libc::SIGTERM`. -/
def SIGTERM : Nat := 15

/-- The message the macOS handler writes to fd 2, selected by signal number
(the trailing NUL of the Rust literal is not written: `msg.len() - 1`). -/
def macos_signal_message (sig : Nat) : String :=
  if sig = SIGTERM then "Received SIGTERM\n"
  else if sig = SIGINT then "Received SIGINT\n"
  else if sig = SIGHUP then "Received SIGHUP\n"
  else "Received unknown signal\n"

/-- `handle_shutdown_signal` from `src/platform/macos.rs`.  Identical to the
Linux handler except that, right after winning the `swap` guard, it writes
the signal name to stderr with `libc::write(2, ..)`. -/
def macos_handle_shutdown_signal (s : SignalState) (sig : Nat)
    (tryReadOk : Bool) : SignalState × List HandlerAction :=
  if s.signal_received then (s, [])
  else
    let s1 : SignalState := { s with signal_received := true }
    let w := HandlerAction.write (macos_signal_message sig)
    match s1.global_callbacks with
    | none => ({ s1 with exited := some 0 }, [w, HandlerAction.exitProc 0])
    | some cbs =>
      if tryReadOk then
        let r := runCallbacks cbs
        if r.2 then
          ({ s1 with exited := some 0 },
            w :: (r.1.map HandlerAction.invoke ++
              [HandlerAction.sync, HandlerAction.usleep 100000,
                HandlerAction.exitProc 0]))
        else
          ({ s1 with aborted := true }, w :: r.1.map HandlerAction.invoke)
      else
        ({ s1 with exited := some 0 },
          [w, HandlerAction.sync, HandlerAction.usleep 100000,
            HandlerAction.exitProc 0])

/-- A sequence of deliveries to the Linux handler; each delivery carries
whether the non-blocking read attempt would succeed at that moment.  Returns
the final state and the per-delivery action traces. -/
def linux_deliver_signals :
    SignalState → List Bool → SignalState × List (List HandlerAction)
  | s, [] => (s, [])
  | s, d :: ds =>
    let r := linux_handle_shutdown_signal s d
    let rest := linux_deliver_signals r.1 ds
    (rest.1, r.2 :: rest.2)

/-- A sequence of deliveries to the macOS handler: each delivery carries the
signal number and whether the read attempt would succeed. -/
def macos_deliver_signals :
    SignalState → List (Nat × Bool) → SignalState × List (List HandlerAction)
  | s, [] => (s, [])
  | s, d :: ds =>
    let r := macos_handle_shutdown_signal s d.1 d.2
    let rest := macos_deliver_signals r.1 ds
    (rest.1, r.2 :: rest.2)

/-! ### D-Bus monitor (`src/platform/linux.rs`, dbus-support build) -/

/-- The fields of a received D-Bus message that `is_shutdown_signal`
inspects: `msg.interface()` and `msg.member()`, both optional. -/
structure DbusMessage where
  interface : Option String
  member : Option String
deriving DecidableEq

/-- `is_shutdown_signal` from `src/platform/linux.rs`: both the interface
and the member must be present and equal to the literal strings. -/
def is_shutdown_signal (m : DbusMessage) : Bool :=
  (m.interface.map (fun i => i == "org.freedesktop.login1.Manager")).getD false
    && (m.member.map (fun x => x == "PrepareForShutdown")).getD false

/-- One iteration outcome of `conn.process(Duration::from_millis(1000))`:
a timeout (`Ok(None)`), a received message (`Ok(Some(msg))`), or a bus
error (`Err`, which the `?` operator propagates out of the loop). -/
inductive BusEvent where
  | timeout
  | message (m : DbusMessage)
  | busError (e : String)
deriving DecidableEq

/-- How the monitor loop left a finite prefix of bus events: still running,
returned with the propagated bus error, or killed by a callback panic. -/
inductive MonitorExit where
  | running
  | errored (e : String)
  | panicked
deriving DecidableEq

/-- The wait loop of `monitor_systemd_signals`, run over a finite prefix of
bus events (the Rust loop is infinite; we observe any finite prefix).
A matching message runs every callback under a blocking read lock, then the
loop continues; a non-matching message or a timeout does nothing; a bus
error exits the loop through `?`.  Returns the labels invoked in order and
the exit condition. -/
def monitor_systemd_signals_loop (cbs : List Callback) :
    List BusEvent → List Nat × MonitorExit
  | [] => ([], MonitorExit.running)
  | BusEvent.timeout :: rest => monitor_systemd_signals_loop cbs rest
  | BusEvent.busError e :: _ => ([], MonitorExit.errored e)
  | BusEvent.message m :: rest =>
    if is_shutdown_signal m then
      let r := runCallbacks cbs
      if r.2 then
        let k := monitor_systemd_signals_loop cbs rest
        (r.1 ++ k.1, k.2)
      else (r.1, MonitorExit.panicked)
    else monitor_systemd_signals_loop cbs rest

/-- Arming phase of `monitor_systemd_signals`:
`Connection::new_system()?` then `conn.add_match_no_cb(..)?`; either failure
propagates as `Err` out of the thread body before the loop starts. -/
def monitor_systemd_signals_arm (connOk addMatchOk : Bool) :
    Except String Unit :=
  if connOk then
    if addMatchOk then Except.ok ()
    else Except.error "failed to add match"
  else Except.error "failed to connect to system bus"

/-- The closure spawned by the dbus-build `start_monitoring`: an `Err` from
`monitor_systemd_signals` is printed to stderr and otherwise dropped. -/
def dbus_thread_stderr (connOk addMatchOk : Bool) : List String :=
  match monitor_systemd_signals_arm connOk addMatchOk with
  | Except.ok _ => []
  | Except.error e => ["Failed to monitor systemd signals: " ++ e]

/-- `start_monitoring` from `src/platform/linux.rs` (dbus-support build):
spawns the monitor thread and returns `Ok(())` unconditionally, before the
thread attempts to connect.  The pair is (result visible to the caller of
`ShutdownGuard::start`, stderr lines produced by the spawned thread).
`ShutdownGuard::start` in `src/lib.rs` forwards the first component. -/
def linux_start_monitoring (connOk addMatchOk : Bool) :
    Except String Unit × List String :=
  (Except.ok (), dbus_thread_stderr connOk addMatchOk)

/-! ### Windows session-event monitor (`src/platform/windows.rs`) -/

/-- `WM_QUERYENDSESSION` message code. -/
def WM_QUERYENDSESSION : Nat := 17

/-- `WM_ENDSESSION` message code. -/
def WM_ENDSESSION : Nat := 22

/-- Process-wide state of the Windows path: the `GLOBAL_CALLBACKS` slot,
the labels invoked so far across all messages, and whether a callback panic
crossed the `extern "system"` boundary (aborting the process). -/
structure WinState where
  global_callbacks : Option (List Callback)
  log : List Nat
  aborted : Bool
deriving DecidableEq

/-- What `window_proc` returns for a message. -/
inductive WinResult where
  | lresult (v : Int)
  | defWindowProc
  | panicked
deriving DecidableEq

/-- `window_proc` from `src/platform/windows.rs`: on `WM_QUERYENDSESSION`
or `WM_ENDSESSION` it runs every registered callback under a blocking read
lock and returns `LRESULT(1)`; every other message goes to
`DefWindowProcW`.  There is no fired flag on this path. -/
def window_proc (s : WinState) (msg : Nat) : WinState × WinResult :=
  if msg = WM_QUERYENDSESSION ∨ msg = WM_ENDSESSION then
    match s.global_callbacks with
    | some cbs =>
      let r := runCallbacks cbs
      if r.2 then ({ s with log := s.log ++ r.1 }, WinResult.lresult 1)
      else ({ s with log := s.log ++ r.1, aborted := true }, WinResult.panicked)
    | none => (s, WinResult.lresult 1)
  else (s, WinResult.defWindowProc)

/-- Deliver a sequence of window messages to `window_proc`, threading the
state. -/
def window_deliver : WinState → List Nat → WinState
  | s, [] => s
  | s, m :: ms => window_deliver (window_proc s m).1 ms

/-! ### Helper lemmas about the execution loop -/

/-- If every callback returns normally, the loop invokes all labels in
registration order and completes. -/
theorem runCallbacks_all_ok (cbs : List Callback)
    (h : ∀ c ∈ cbs, c.fails = false) :
    runCallbacks cbs = (cbs.map Callback.label, true) := by
  induction cbs with
  | nil => rfl
  | cons c rest ih =>
    have hc : c.fails = false := h c (List.mem_cons_self c rest)
    have hr := ih fun x hx => h x (List.mem_cons_of_mem c hx)
    simp [runCallbacks, hc, hr]

/-- A failing callback stops the loop: only the callbacks before the first
failing one are invoked, and the iteration reports failure. -/
theorem runCallbacks_stops_at_failure (pre : List Callback) (c : Callback)
    (post : List Callback) (hpre : ∀ x ∈ pre, x.fails = false)
    (hc : c.fails = true) :
    runCallbacks (pre ++ c :: post) = (pre.map Callback.label, false) := by
  induction pre with
  | nil => simp [runCallbacks, hc]
  | cons a rest ih =>
    have ha : a.fails = false := hpre a (List.mem_cons_self a rest)
    have hr := ih fun x hx => hpre x (List.mem_cons_of_mem a hx)
    simp [runCallbacks, ha, hr]

/-! ### Claims about the registry (`src/lib.rs`) -/

/-- C2: a single call to `execute_callbacks` invokes every currently
registered callback exactly once, in registration order (the invoked-label
list is exactly the registered labels in order), and calling it again
reruns all current callbacks — the fire-once guarantee does not apply to
this primitive.  Callbacks are assumed to return normally (a panicking
callback is claim C3's subject). -/
theorem C2_execute_exact_order (g : ShutdownGuard)
    (h : ∀ c ∈ g.callbacks, c.fails = false) :
    g.execute_callbacks.2 = (g.callbacks.map Callback.label, true) ∧
      g.execute_callbacks.1.execute_callbacks.2
        = (g.callbacks.map Callback.label, true) := by
  have hr := runCallbacks_all_ok g.callbacks h
  exact ⟨by simp [ShutdownGuard.execute_callbacks, hr],
    by simp [ShutdownGuard.execute_callbacks, hr]⟩

/-- Witness for C2 at three callbacks labelled 0, 1, 2. -/
theorem C2_execute_exact_order_witness :
    (∀ c ∈ (ShutdownGuard.mk [Callback.mk 0 false, Callback.mk 1 false,
        Callback.mk 2 false]).callbacks, c.fails = false) ∧
      ((ShutdownGuard.mk [Callback.mk 0 false, Callback.mk 1 false,
          Callback.mk 2 false]).execute_callbacks.2
          = ((ShutdownGuard.mk [Callback.mk 0 false, Callback.mk 1 false,
              Callback.mk 2 false]).callbacks.map Callback.label, true) ∧
        (ShutdownGuard.mk [Callback.mk 0 false, Callback.mk 1 false,
          Callback.mk 2 false]).execute_callbacks.1.execute_callbacks.2
          = ((ShutdownGuard.mk [Callback.mk 0 false, Callback.mk 1 false,
              Callback.mk 2 false]).callbacks.map Callback.label, true)) :=
  ⟨by decide, C2_execute_exact_order _ (by decide)⟩

/-- C3 counterexample: with callbacks labelled 0 (ok), 1 (fails), 2 (ok),
`execute_callbacks` invokes only callback 0 — callback 2, registered after
the failing one, does not run, refuting the isolation claim. -/
theorem C3_isolation_counterexample :
    (ShutdownGuard.mk [Callback.mk 0 false, Callback.mk 1 true,
        Callback.mk 2 false]).execute_callbacks.2 = ([0], false) ∧
      2 ∉ (ShutdownGuard.mk [Callback.mk 0 false, Callback.mk 1 true,
        Callback.mk 2 false]).execute_callbacks.2.1 := by
  decide

/-- C3 amended: there is no isolation of individual callback invocations —
a failing callback aborts the rest of the sequence.  Exactly the callbacks
registered before the first failing one are invoked, and the failure
propagates out of `execute_callbacks`. -/
theorem C3_failure_stops_sequence (pre : List Callback) (c : Callback)
    (post : List Callback) (hpre : ∀ x ∈ pre, x.fails = false)
    (hc : c.fails = true) :
    (ShutdownGuard.mk (pre ++ c :: post)).execute_callbacks.2
      = (pre.map Callback.label, false) := by
  simp [ShutdownGuard.execute_callbacks,
    runCallbacks_stops_at_failure pre c post hpre hc]

/-- Witness for the amended C3 at callbacks 0 (ok), 1 (fails), 2 (ok). -/
theorem C3_failure_stops_sequence_witness :
    ((∀ x ∈ [Callback.mk 0 false], x.fails = false) ∧
        (Callback.mk 1 true).fails = true) ∧
      (ShutdownGuard.mk ([Callback.mk 0 false] ++ Callback.mk 1 true ::
          [Callback.mk 2 false])).execute_callbacks.2
        = ([Callback.mk 0 false].map Callback.label, false) :=
  ⟨⟨by decide, rfl⟩, C3_failure_stops_sequence _ _ _ (by decide) rfl⟩

/-- The registry length after any operation sequence is the accumulator
count of registers since the last clear. -/
theorem applyOps_length (ops : List RegOp) :
    ∀ g : ShutdownGuard,
      (applyOps g ops).callbacks.length = countFrom g.callbacks.length ops := by
  induction ops with
  | nil => intro g; rfl
  | cons op ops ih =>
    intro g
    cases op with
    | register c =>
      have h1 := ih (g.register c)
      simpa [applyOps, applyOp, countFrom, ShutdownGuard.register] using h1
    | clear =>
      have h1 := ih g.clear
      simpa [applyOps, applyOp, countFrom, ShutdownGuard.clear] using h1

/-- C8: after any sequence of register and clear calls from a new guard,
`callback_count` returns exactly the number of register calls since the
most recent clear (or since creation); `register` always succeeds and
increases the count by one; and `callback_count` leaves the registry
untouched. -/
theorem C8_count_eq_registers_since_clear (ops : List RegOp)
    (g : ShutdownGuard) (c : Callback) :
    (applyOps ShutdownGuard.new ops).callback_count.2
        = spec_registers_since_last_clear ops ∧
      (g.register c).callback_count.2 = g.callback_count.2 + 1 ∧
      g.callback_count.1 = g := by
  refine ⟨?_, ?_, rfl⟩
  · simpa [ShutdownGuard.callback_count, spec_registers_since_last_clear,
      ShutdownGuard.new] using applyOps_length ops ShutdownGuard.new
  · simp [ShutdownGuard.callback_count, ShutdownGuard.register]

/-- C9: after `clear()` and before any new registration,
`execute_callbacks` invokes zero callbacks — the invoked-label list of the
post-clear call is empty, so any observation log is left unchanged. -/
theorem C9_clear_then_execute_runs_nothing (g : ShutdownGuard) :
    g.clear.execute_callbacks.2 = ([], true) := rfl

/-- C10: `execute_callbacks` and `callback_count` never modify the registry
(post-state equals pre-state); only `register` — which appends exactly one
entry at the end, preserving all prior entries and their order — and
`clear` mutate it. -/
theorem C10_frame (g : ShutdownGuard) (c : Callback) :
    g.execute_callbacks.1 = g ∧ g.callback_count.1 = g ∧
      (g.register c).callbacks = g.callbacks ++ [c] ∧
      g.clear.callbacks = ([] : List Callback) :=
  ⟨rfl, rfl, rfl, rfl⟩

/-! ### Claims about the POSIX signal path -/

/-- Once the fired flag is set, the Linux handler is a pure no-op. -/
theorem linux_handler_fired (s : SignalState) (h : s.signal_received = true)
    (d : Bool) : linux_handle_shutdown_signal s d = (s, []) := by
  simp [linux_handle_shutdown_signal, h]

/-- Once the fired flag is set, the macOS handler is a pure no-op. -/
theorem macos_handler_fired (s : SignalState) (h : s.signal_received = true)
    (sig : Nat) (d : Bool) : macos_handle_shutdown_signal s sig d = (s, []) := by
  simp [macos_handle_shutdown_signal, h]

/-- The first delivery to the Linux handler sets the fired flag. -/
theorem linux_handler_sets_flag (s : SignalState) (d : Bool)
    (h : s.signal_received = false) :
    (linux_handle_shutdown_signal s d).1.signal_received = true := by
  unfold linux_handle_shutdown_signal
  simp only [h, Bool.false_eq_true, if_false]
  cases hg : s.global_callbacks <;> cases d <;> simp [hg]
  split <;> simp

/-- The first delivery to the macOS handler sets the fired flag. -/
theorem macos_handler_sets_flag (s : SignalState) (sig : Nat) (d : Bool)
    (h : s.signal_received = false) :
    (macos_handle_shutdown_signal s sig d).1.signal_received = true := by
  unfold macos_handle_shutdown_signal
  simp only [h, Bool.false_eq_true, if_false]
  cases hg : s.global_callbacks <;> cases d <;> simp [hg]
  split <;> simp

/-- Deliveries to an already-fired Linux handler all produce empty traces
and leave the state unchanged. -/
theorem linux_deliver_fired (s : SignalState) (h : s.signal_received = true) :
    ∀ ds : List Bool,
      linux_deliver_signals s ds = (s, ds.map fun _ => ([] : List HandlerAction)) := by
  intro ds
  induction ds with
  | nil => rfl
  | cons d ds ih => simp [linux_deliver_signals, linux_handler_fired s h d, ih]

/-- Deliveries to an already-fired macOS handler all produce empty traces
and leave the state unchanged. -/
theorem macos_deliver_fired (s : SignalState) (h : s.signal_received = true) :
    ∀ ds : List (Nat × Bool),
      macos_deliver_signals s ds = (s, ds.map fun _ => ([] : List HandlerAction)) := by
  intro ds
  induction ds with
  | nil => rfl
  | cons d ds ih =>
    simp [macos_deliver_signals, macos_handler_fired s h d.1 d.2, ih]

/-- C1: single-fire guard on the POSIX signal path, on both Linux (non-dbus
build) and macOS.  For any number of deliveries starting from an unfired
state, only the first delivery can perform any action (in particular invoke
any callback): the trace of every subsequent delivery is empty, because it
observes the fired flag already set and returns immediately.  Concurrent
deliveries are modelled by arbitrary sequentialisations, sound because the
guard is one atomic swap. -/
theorem C1_posix_single_fire (s : SignalState) (h : s.signal_received = false)
    (d : Bool) (ds : List Bool) (q : Nat × Bool) (qs : List (Nat × Bool)) :
    (linux_deliver_signals s (d :: ds)).2
        = (linux_handle_shutdown_signal s d).2
            :: ds.map (fun _ => ([] : List HandlerAction)) ∧
      (macos_deliver_signals s (q :: qs)).2
        = (macos_handle_shutdown_signal s q.1 q.2).2
            :: qs.map (fun _ => ([] : List HandlerAction)) := by
  constructor
  · have hset := linux_handler_sets_flag s d h
    simp [linux_deliver_signals, linux_deliver_fired _ hset ds]
  · have hset := macos_handler_sets_flag s q.1 q.2 h
    simp [macos_deliver_signals, macos_deliver_fired _ hset qs]

/-- Witness for C1: one armed callback, three Linux deliveries and two
macOS deliveries — only the first of each produces a trace. -/
theorem C1_posix_single_fire_witness :
    (SignalState.mk (some [Callback.mk 0 false]) false none false).signal_received
        = false ∧
      ((linux_deliver_signals
            (SignalState.mk (some [Callback.mk 0 false]) false none false)
            (true :: [true, false])).2
          = (linux_handle_shutdown_signal
                (SignalState.mk (some [Callback.mk 0 false]) false none false)
                true).2
              :: [true, false].map (fun _ => ([] : List HandlerAction)) ∧
        (macos_deliver_signals
            (SignalState.mk (some [Callback.mk 0 false]) false none false)
            ((15, true) :: [(2, true)])).2
          = (macos_handle_shutdown_signal
                (SignalState.mk (some [Callback.mk 0 false]) false none false)
                (15, true).1 (15, true).2).2
              :: [(2, true)].map (fun _ => ([] : List HandlerAction))) :=
  ⟨rfl, C1_posix_single_fire _ rfl true [true, false] (15, true) [(2, true)]⟩

/-- C6: the first-delivery sequence of the POSIX handlers.  In an armed,
unfired state: if the non-blocking read attempt fails, no callback is
invoked for that invocation; either way the handler then syncs pending
writes to disk, sleeps the fixed 100000-microsecond grace interval, and
exits the process unconditionally (exit code 0, bypassing unwinding) —
provided callbacks return normally on the successful path.  The macOS
handler additionally writes the signal name to stderr first. -/
theorem C6_posix_first_delivery_sequence (s : SignalState)
    (cbs : List Callback) (hg : s.global_callbacks = some cbs)
    (hf : s.signal_received = false) (hok : ∀ c ∈ cbs, c.fails = false)
    (sig : Nat) :
    (linux_handle_shutdown_signal s false).2
        = [HandlerAction.sync, HandlerAction.usleep 100000,
            HandlerAction.exitProc 0] ∧
      (linux_handle_shutdown_signal s false).1.exited = some 0 ∧
      (linux_handle_shutdown_signal s true).2
        = (cbs.map Callback.label).map HandlerAction.invoke ++
            [HandlerAction.sync, HandlerAction.usleep 100000,
              HandlerAction.exitProc 0] ∧
      (linux_handle_shutdown_signal s true).1.exited = some 0 ∧
      (macos_handle_shutdown_signal s sig false).2
        = [HandlerAction.write (macos_signal_message sig), HandlerAction.sync,
            HandlerAction.usleep 100000, HandlerAction.exitProc 0] ∧
      (macos_handle_shutdown_signal s sig false).1.exited = some 0 ∧
      (macos_handle_shutdown_signal s sig true).2
        = HandlerAction.write (macos_signal_message sig) ::
            ((cbs.map Callback.label).map HandlerAction.invoke ++
              [HandlerAction.sync, HandlerAction.usleep 100000,
                HandlerAction.exitProc 0]) ∧
      (macos_handle_shutdown_signal s sig true).1.exited = some 0 := by
  have hr := runCallbacks_all_ok cbs hok
  refine ⟨?_, ?_, ?_, ?_, ?_, ?_, ?_, ?_⟩ <;>
    simp [linux_handle_shutdown_signal, macos_handle_shutdown_signal, hf, hg, hr]

/-- Witness for C6 at one armed callback and SIGTERM. -/
theorem C6_posix_first_delivery_sequence_witness :
    ((SignalState.mk (some [Callback.mk 7 false]) false none false).global_callbacks
          = some [Callback.mk 7 false] ∧
        (SignalState.mk (some [Callback.mk 7 false]) false none false).signal_received
          = false ∧
        ∀ c ∈ [Callback.mk 7 false], c.fails = false) ∧
      ((linux_handle_shutdown_signal
            (SignalState.mk (some [Callback.mk 7 false]) false none false)
            true).2
          = ([Callback.mk 7 false].map Callback.label).map HandlerAction.invoke ++
              [HandlerAction.sync, HandlerAction.usleep 100000,
                HandlerAction.exitProc 0] ∧
        (macos_handle_shutdown_signal
            (SignalState.mk (some [Callback.mk 7 false]) false none false)
            15 true).1.exited = some 0) := by
  have h := C6_posix_first_delivery_sequence
    (SignalState.mk (some [Callback.mk 7 false]) false none false)
    [Callback.mk 7 false] rfl rfl (by decide) 15
  exact ⟨⟨rfl, rfl, by decide⟩, h.2.2.1, h.2.2.2.2.2.2.2⟩

/-! ### Claims about the D-Bus monitor -/

/-- C4 counterexample: when the system-bus connection fails, the dbus-build
`start_monitoring` still returns `Ok(())` to its caller — the failure is
only printed to stderr by the spawned thread — refuting the claim that a
connection failure is surfaced to `start()`'s caller as an error. -/
theorem C4_start_ok_despite_connect_failure :
    (linux_start_monitoring false true).1 = Except.ok () ∧
      (linux_start_monitoring false true).2
        = ["Failed to monitor systemd signals: failed to connect to system bus"] :=
  ⟨rfl, rfl⟩

/-- C4 amended: on the D-Bus path, `start()` returns `Ok` unconditionally,
before the monitor thread even attempts to connect; a connection or
subscription failure happens on the background thread, which prints the
error to stderr and exits, leaving monitoring inactive without notifying
the caller. -/
theorem C4_start_returns_ok_unconditionally (connOk addMatchOk : Bool) :
    (linux_start_monitoring connOk addMatchOk).1 = Except.ok () ∧
      ((connOk = false ∨ addMatchOk = false) →
        (linux_start_monitoring connOk addMatchOk).2 ≠ []) := by
  cases connOk <;> cases addMatchOk <;>
    simp [linux_start_monitoring, dbus_thread_stderr, monitor_systemd_signals_arm]

/-- Witness for the amended C4 at a failed connection. -/
theorem C4_start_returns_ok_unconditionally_witness :
    ((linux_start_monitoring false true).1 = Except.ok () ∧
        ((false = false ∨ true = false) →
          (linux_start_monitoring false true).2 ≠ [])) ∧
      (linux_start_monitoring false true).2 ≠ [] :=
  ⟨C4_start_returns_ok_unconditionally false true,
    (C4_start_returns_ok_unconditionally false true).2 (Or.inl rfl)⟩

/-- C7: the monitored filter and the loop behaviour.  `is_shutdown_signal`
accepts a message exactly when its interface is the literal
`org.freedesktop.login1.Manager` and its member is the literal
`PrepareForShutdown`; a non-matching message and a timeout execute nothing
and continue the loop unchanged; a matching message executes every
registered callback (labels in order) and then the loop continues over the
remaining events rather than exiting. -/
theorem C7_dbus_filter_and_continue (m : DbusMessage) (cbs : List Callback)
    (hok : ∀ c ∈ cbs, c.fails = false) (rest : List BusEvent) :
    (is_shutdown_signal m = true ↔
        m.interface = some "org.freedesktop.login1.Manager" ∧
          m.member = some "PrepareForShutdown") ∧
      (is_shutdown_signal m = false →
        monitor_systemd_signals_loop cbs (BusEvent.message m :: rest)
          = monitor_systemd_signals_loop cbs rest) ∧
      monitor_systemd_signals_loop cbs (BusEvent.timeout :: rest)
        = monitor_systemd_signals_loop cbs rest ∧
      (is_shutdown_signal m = true →
        monitor_systemd_signals_loop cbs (BusEvent.message m :: rest)
          = (cbs.map Callback.label ++
              (monitor_systemd_signals_loop cbs rest).1,
              (monitor_systemd_signals_loop cbs rest).2)) := by
  have hr := runCallbacks_all_ok cbs hok
  refine ⟨?_, ?_, rfl, ?_⟩
  · cases hi : m.interface <;> cases hm : m.member <;>
      simp [is_shutdown_signal, hi, hm]
  · intro hno
    simp [monitor_systemd_signals_loop, hno]
  · intro hyes
    simp [monitor_systemd_signals_loop, hyes, hr]

/-- Witness for C7 at the matching message and one callback. -/
theorem C7_dbus_filter_and_continue_witness :
    (∀ c ∈ [Callback.mk 4 false], c.fails = false) ∧
      ((is_shutdown_signal
            (DbusMessage.mk (some "org.freedesktop.login1.Manager")
              (some "PrepareForShutdown")) = true ↔
          (DbusMessage.mk (some "org.freedesktop.login1.Manager")
              (some "PrepareForShutdown")).interface
              = some "org.freedesktop.login1.Manager" ∧
            (DbusMessage.mk (some "org.freedesktop.login1.Manager")
              (some "PrepareForShutdown")).member = some "PrepareForShutdown") ∧
        (is_shutdown_signal
            (DbusMessage.mk (some "org.freedesktop.login1.Manager")
              (some "PrepareForShutdown")) = false →
          monitor_systemd_signals_loop [Callback.mk 4 false]
              (BusEvent.message
                (DbusMessage.mk (some "org.freedesktop.login1.Manager")
                  (some "PrepareForShutdown")) :: [BusEvent.timeout])
            = monitor_systemd_signals_loop [Callback.mk 4 false]
                [BusEvent.timeout]) ∧
        monitor_systemd_signals_loop [Callback.mk 4 false]
            (BusEvent.timeout :: [BusEvent.timeout])
          = monitor_systemd_signals_loop [Callback.mk 4 false]
              [BusEvent.timeout] ∧
        (is_shutdown_signal
            (DbusMessage.mk (some "org.freedesktop.login1.Manager")
              (some "PrepareForShutdown")) = true →
          monitor_systemd_signals_loop [Callback.mk 4 false]
              (BusEvent.message
                (DbusMessage.mk (some "org.freedesktop.login1.Manager")
                  (some "PrepareForShutdown")) :: [BusEvent.timeout])
            = ([Callback.mk 4 false].map Callback.label ++
                (monitor_systemd_signals_loop [Callback.mk 4 false]
                  [BusEvent.timeout]).1,
                (monitor_systemd_signals_loop [Callback.mk 4 false]
                  [BusEvent.timeout]).2))) :=
  ⟨by decide,
    C7_dbus_filter_and_continue
      (DbusMessage.mk (some "org.freedesktop.login1.Manager")
        (some "PrepareForShutdown"))
      [Callback.mk 4 false] (by decide) [BusEvent.timeout]⟩

/-! ### Claims about the Windows session-event monitor -/

/-- C5 counterexample: with one registered callback and no fired flag in
`window_proc`, delivering `WM_QUERYENDSESSION` followed by `WM_ENDSESSION`
runs the callback twice — the invocation log is `[0, 0]` — refuting the
claim that the callback sequence executes at most once per process
lifetime. -/
theorem C5_win_no_single_fire_counterexample :
    (window_deliver (WinState.mk (some [Callback.mk 0 false]) [] false)
        [WM_QUERYENDSESSION, WM_ENDSESSION]).log = [0, 0] ∧
      ¬ ((window_deliver (WinState.mk (some [Callback.mk 0 false]) [] false)
          [WM_QUERYENDSESSION, WM_ENDSESSION]).log.count 0 ≤ 1) := by
  decide

/-- C5 amended: the Windows window procedure has no single-fire guard —
every `WM_QUERYENDSESSION` or `WM_ENDSESSION` message executes the full
registered callback sequence and returns `LRESULT(1)`, so a redelivery (or
the usual query-then-end pair) runs the callbacks once per message. -/
theorem C5_win_fires_on_every_session_message (s : WinState)
    (cbs : List Callback) (hg : s.global_callbacks = some cbs)
    (hok : ∀ c ∈ cbs, c.fails = false) (m : Nat)
    (hm : m = WM_QUERYENDSESSION ∨ m = WM_ENDSESSION) :
    window_proc s m
      = ({ s with log := s.log ++ cbs.map Callback.label },
          WinResult.lresult 1) := by
  have hr := runCallbacks_all_ok cbs hok
  unfold window_proc
  rw [if_pos hm]
  simp [hg, hr]

/-- Witness for the amended C5 at one callback and `WM_ENDSESSION`. -/
theorem C5_win_fires_on_every_session_message_witness :
    ((WinState.mk (some [Callback.mk 3 false]) [] false).global_callbacks
          = some [Callback.mk 3 false] ∧
        (∀ c ∈ [Callback.mk 3 false], c.fails = false) ∧
        (WM_ENDSESSION = WM_QUERYENDSESSION ∨ WM_ENDSESSION = WM_ENDSESSION)) ∧
      window_proc (WinState.mk (some [Callback.mk 3 false]) [] false)
          WM_ENDSESSION
        = ({ WinState.mk (some [Callback.mk 3 false]) [] false with
              log := (WinState.mk (some [Callback.mk 3 false]) [] false).log ++
                [Callback.mk 3 false].map Callback.label },
            WinResult.lresult 1) :=
  ⟨⟨rfl, by decide, Or.inr rfl⟩,
    C5_win_fires_on_every_session_message _ _ rfl (by decide) _ (Or.inr rfl)⟩

end ShutdownGuardRs
